import Mathlib

/-!
Shallow embedding of the VidSync user-account backend (Express + Mongoose
controllers in `src/controllers/user.controller.js`, the user model and the
subscription model, the multer staging middleware and the Cloudinary upload
utility), together with theorems settling the frozen claims about its
specification.

Conventions of the embedding:
* Mongo documents become Lean structures; the collection becomes a `Store`
  holding a list of user documents and a list of subscription edges.
* A thrown `ApiError(code, msg)`, a JavaScript `TypeError`, a
  `jsonwebtoken` verification error, a Node `fs` error and a
  `ReferenceError` become the constructors of `JsErr`; a handler returns
  `Except JsErr response` paired with the resulting store (and, where the
  handler touches staged upload files, the resulting set of staged paths).
* `bcrypt` is modelled as an ideal hash: the digest determines the
  plaintext it was derived from and nothing else collides with it.
* `jsonwebtoken` is modelled as ideal signing: a signed token is a pair of
  its payload and the signing secret, and verification succeeds exactly
  when the presented secret equals the signing secret.
-/

namespace VidSync

/-- JWT payloads as issued by the two generators on the user model:
`generateAccessToken` signs `{_id, username, email, fullName}` and
`generateRefreshToken` signs `{_id}`. The `iat` field stands in for the
issue time that `jsonwebtoken` embeds, so tokens issued at different
times are textually different. -/
inductive Payload where
  | access (uid : Nat) (username email fullName : String) (iat : Nat)
  | refresh (uid : Nat) (iat : Nat)
deriving DecidableEq

/-- The account id claim of a payload (`decodedToken?._id`). -/
def Payload.uid : Payload → Nat
  | .access uid _ _ _ _ => uid
  | .refresh uid _ => uid

/-- An ideal signed JWT: the payload together with the secret that signed
it. Signatures cannot be forged, so a token verifies under a secret iff
that secret signed it. -/
structure Token where
  payload : Payload
  secret : String
deriving DecidableEq

/-- Model of `jwt.sign(payload, secret)`. -/
def jwtSign (p : Payload) (secret : String) : Token := ⟨p, secret⟩

/-- Runtime failures surfaced by the handlers: a thrown
`ApiError(statusCode, message)`, a JavaScript `TypeError` (property access
on `undefined`/`null` or a call to a missing method), an error thrown by
`jwt.verify`, a Node `fs` error (`unlinkSync` on a missing file), or a
`ReferenceError` (use of an undeclared variable). -/
inductive JsErr where
  | api (statusCode : Nat) (message : String)
  | typeError (message : String)
  | jwt (message : String)
  | fsErr (message : String)
  | refError (message : String)
deriving DecidableEq

/-- The `message` property of a thrown error (`error?.message`). -/
def JsErr.message : JsErr → String
  | .api _ m => m
  | .typeError m => m
  | .jwt m => m
  | .fsErr m => m
  | .refError m => m

/-- Model of `jwt.verify(token, secret)` as called on a possibly-undefined
token: `jwt.verify(undefined, s)` throws `jwt must be provided`; a defined
token verifies iff it was signed with `secret`, otherwise `invalid
signature` is thrown. -/
def jwtVerifyJS (tok : Option Token) (secret : String) : Except JsErr Payload :=
  match tok with
  | none => .error (.jwt "jwt must be provided")
  | some t => if t.secret = secret then .ok t.payload else .error (.jwt "invalid signature")

/-- The process environment the token code reads:
`process.env.ACCESS_TOKEN_SECRET` and `process.env.REFRESH_TOKEN_SECRET`. -/
structure Env where
  accessTokenSecret : String
  refreshTokenSecret : String
deriving DecidableEq

/-- An ideal bcrypt digest: `plain` is the hashed plaintext and `salt`
the embedded random salt, so hashing is one-to-one per salt and
comparison recovers exactly the original plaintext. -/
structure Digest where
  plain : String
  salt : Nat
deriving DecidableEq

/-- Model of `bcrypt.hash(p, 10)` with an explicit salt argument. -/
def bcryptHash (p : String) (salt : Nat) : Digest := ⟨p, salt⟩

/-- Model of `bcrypt.compare(p, digest)`. -/
def bcryptCompare (p : String) (d : Digest) : Bool := p == d.plain

/-- JavaScript `String.prototype.toLowerCase()`, character by
character. -/
def jsToLower (s : String) : String := ⟨s.data.map Char.toLower⟩

/-- JavaScript falsiness of `s.trim()`: true when the string is empty or
all-whitespace. -/
def isBlank (s : String) : Bool := s.data.all Char.isWhitespace

/-- A user document as defined by `userSchema`: username and email are
stored lowercased, `password` holds the bcrypt digest (hash-on-write via
the pre-save hook), `refreshToken` is optional. -/
structure UserDoc where
  _id : Nat
  username : String
  email : String
  fullName : String
  avatar : String
  coverImage : String
  watchHistory : List Nat
  password : Digest
  refreshToken : Option Token
deriving DecidableEq

/-- The instance method `userSchema.methods.checkPassword`. -/
def UserDoc.checkPassword (u : UserDoc) (password : String) : Bool :=
  bcryptCompare password u.password

/-- The names of the instance methods the user model defines. The
controllers may only successfully call methods from this list; calling
any other name is a `TypeError` at runtime. -/
def userModelMethods : List String :=
  ["checkPassword", "generateAccessToken", "generateRefreshToken"]

/-- A subscription document (`subscriptionsSchema`): `subscriber`
subscribes to `channel`. -/
structure Edge where
  subscriber : Nat
  channel : Nat
deriving DecidableEq

/-- The persistent state: the `users` and `subscriptions` collections. -/
structure Store where
  users : List UserDoc
  subscriptions : List Edge
deriving DecidableEq

/-- Model of `User.findById(id)`. -/
def findById (s : Store) (uid : Nat) : Option UserDoc :=
  s.users.find? (fun u => u._id == uid)

/-- One `$or` branch `{email}` or `{username}` of the duplicate/login
lookup. An `undefined` value is serialized as `null` by the driver and no
document carries a null email or username (both are required), so an
absent field matches nothing. -/
def matchesEmailOrUsername (email? username? : Option String) (u : UserDoc) : Bool :=
  (match email? with | some e => u.email == e | none => false) ||
  (match username? with | some n => u.username == n | none => false)

/-- Model of `User.findOne({ $or: [{ email }, { username }] })`. -/
def findOneByEmailOrUsername (s : Store) (email? username? : Option String) : Option UserDoc :=
  s.users.find? (matchesEmailOrUsername email? username?)

/-- Point update of one user document, as done by `user.save()` after a
field assignment and by `findByIdAndUpdate` with `$set`. -/
def updateUser (s : Store) (uid : Nat) (f : UserDoc → UserDoc) : Store :=
  { s with users := s.users.map (fun u => if u._id == uid then f u else u) }

/-- The instance method `generateAccessToken`: signs
`{_id, username, email, fullName}` with `ACCESS_TOKEN_SECRET`. -/
def generateAccessToken (env : Env) (now : Nat) (u : UserDoc) : Token :=
  jwtSign (.access u._id u.username u.email u.fullName now) env.accessTokenSecret

/-- The instance method `generateRefreshToken`: signs `{_id}` with
`REFRESH_TOKEN_SECRET`. -/
def generateRefreshToken (env : Env) (now : Nat) (u : UserDoc) : Token :=
  jwtSign (.refresh u._id now) env.refreshTokenSecret

/-- `generateAccessAndRefreshTokens(userId)`: looks the user up, issues
both tokens, persists the refresh token on the user
(`validateBeforeSave: false`, so no re-hashing happens) and returns the
pair. Its own `try/catch` converts every inner failure, including the
404 thrown when the user is absent, into
`ApiError(500, "Error generating tokens")`. -/
def generateAccessAndRefreshTokens (env : Env) (now : Nat) (userId : Nat) (s : Store) :
    (Except JsErr (Token × Token)) × Store :=
  match findById s userId with
  | none => (.error (.api 500 "Error generating tokens"), s)
  | some user =>
    let accessToken := generateAccessToken env now user
    let refreshToken := generateRefreshToken env now user
    (.ok (accessToken, refreshToken),
     updateUser s user._id (fun u => { u with refreshToken := some refreshToken }))

/-- A refresh request: `req.cookies.refreshToken` and
`req.body.refreshToken`. -/
structure RefreshReq where
  cookieRefreshToken : Option Token
  bodyRefreshToken : Option Token
deriving DecidableEq

/-- The successful refresh response. The handler destructures
`{ accessToken, newRefreshToken }` from `generateAccessAndRefreshTokens`,
which returns a field named `refreshToken`, so `newRefreshToken` — and
with it the `refreshToken` cookie and body field — is `undefined`
(`none`). -/
structure RefreshResp where
  accessToken : Token
  refreshToken : Option Token
  cookies : List (String × Option Token)
deriving DecidableEq

/-- Body of the `try` block of `refreshAccessToken` (lines 240-276 of the
controller): verifies the incoming token with
`process.env.ACCESS_TOKEN_SECRET` — exactly as written at line 243 —
resolves the user from the decoded `_id`, compares the incoming token to
the stored one with strict equality, and reissues a pair. -/
def refreshTryBody (env : Env) (now : Nat) (incoming : Option Token) (s : Store) :
    (Except JsErr RefreshResp) × Store :=
  match jwtVerifyJS incoming env.accessTokenSecret with
  | .error e => (.error e, s)
  | .ok payload =>
    match findById s payload.uid with
    | none => (.error (.api 404 "Invalid refresh token"), s)
    | some user =>
      if incoming != user.refreshToken then
        (.error (.api 400 "Invalid refresh token or token is expired"), s)
      else
        match generateAccessAndRefreshTokens env now user._id s with
        | (.error e, s1) => (.error e, s1)
        | (.ok (accessToken, _newPair), s1) =>
          (.ok { accessToken := accessToken
                 refreshToken := none
                 cookies := [("accessToken", some accessToken), ("refreshToken", none)] }, s1)

/-- `refreshAccessToken`: reads the incoming token from the cookie or the
body (`||`), then — as literally written at lines 236-238 — throws
`ApiError(400, "Refresh token is required")` when a token IS present, and
otherwise runs the `try` block; the `catch` rethrows every inner failure
as `ApiError(500, error?.message || "Error refreshing access token")`. -/
def refreshAccessToken (env : Env) (now : Nat) (req : RefreshReq) (s : Store) :
    (Except JsErr RefreshResp) × Store :=
  let incoming := req.cookieRefreshToken.orElse (fun _ => req.bodyRefreshToken)
  if incoming.isSome then
    (.error (.api 400 "Refresh token is required"), s)
  else
    match refreshTryBody env now incoming s with
    | (.ok r, s1) => (.ok r, s1)
    | (.error e, s1) =>
      (.error (.api 500 (if e.message.isEmpty then "Error refreshing access token" else e.message)),
       s1)

/-- Field values of a document as rendered into a JSON response. -/
inductive Value where
  | str (s : String)
  | nat (n : Nat)
  | bool (b : Bool)
  | digest (d : Digest)
  | token (t : Token)
  | natList (l : List Nat)
deriving DecidableEq

/-- The fields of a user document in response order; `refreshToken` is
present only when the document carries one (Mongo omits unset fields). -/
def userFields (u : UserDoc) : List (String × Value) :=
  [("_id", .nat u._id), ("username", .str u.username), ("email", .str u.email),
   ("fullName", .str u.fullName), ("avatar", .str u.avatar),
   ("coverImage", .str u.coverImage), ("watchHistory", .natList u.watchHistory),
   ("password", .digest u.password)] ++
  (match u.refreshToken with
   | some t => [("refreshToken", .token t)]
   | none => [])

/-- Model of Mongoose `.select("-f1 -f2 ...")`: the document with the
named fields removed. -/
def selectView (minus : List String) (u : UserDoc) : List (String × Value) :=
  (userFields u).filter (fun kv => !(minus.contains kv.1))

/-- Whether a rendered document contains a field of the given name. -/
def hasKey (view : List (String × Value)) (k : String) : Bool :=
  view.any (fun kv => kv.1 == k)

/-- JavaScript falsiness of an optional string: `undefined` and `""` are
falsy. -/
def isFalsyStr : Option String → Bool
  | none => true
  | some s => s.isEmpty

/-- A login request body. -/
structure LoginReq where
  email : Option String
  username : Option String
  password : String
deriving DecidableEq

/-- The successful login response: sanitized user, both tokens in the
body, and both tokens as http-only secure cookies. -/
structure LoginResp where
  user : Option (List (String × Value))
  accessToken : Token
  refreshToken : Token
  cookies : List (String × Option Token)
deriving DecidableEq

/-- `loginUser`: requires an email or username, looks the account up,
checks the password with `user.checkPassword`, issues and persists a
token pair, and answers with the `-password -refreshToken` projection
plus both tokens as cookies. Every failure path leaves the store
untouched and sets no cookie. -/
def loginUser (env : Env) (now : Nat) (req : LoginReq) (s : Store) :
    (Except JsErr LoginResp) × Store :=
  if isFalsyStr req.email && isFalsyStr req.username then
    (.error (.api 400 "Please provide email or username"), s)
  else
    match findOneByEmailOrUsername s req.email req.username with
    | none => (.error (.api 404 "User does not exists"), s)
    | some user =>
      if !(user.checkPassword req.password) then
        (.error (.api 401 "Invalid user credentials"), s)
      else
        match generateAccessAndRefreshTokens env now user._id s with
        | (.error e, s1) => (.error e, s1)
        | (.ok (accessToken, refreshToken), s1) =>
          (.ok { user := (findById s1 user._id).map (selectView ["password", "refreshToken"])
                 accessToken := accessToken
                 refreshToken := refreshToken
                 cookies := [("accessToken", some accessToken),
                             ("refreshToken", some refreshToken)] }, s1)

/-- A staged file produced by the multer disk storage: its local path. -/
structure FileUpload where
  path : String
deriving DecidableEq

/-- `req.files` as produced by `upload.fields([{name: "avatar"},
{name: "coverImage"}])`: each field maps to an array of staged files when
at least one was sent, and is `undefined` otherwise. -/
structure FilesObj where
  avatar : Option (List FileUpload)
  coverImage : Option (List FileUpload)
deriving DecidableEq

/-- A registration request: body fields (each possibly `undefined`) and
the staged files. -/
structure RegisterReq where
  username : Option String
  email : Option String
  fullName : Option String
  password : Option String
  files : FilesObj
deriving DecidableEq

/-- Model of `fs.unlinkSync(path)` over the set of currently staged local
paths: removes the path, or throws `ENOENT` when no such file exists. -/
def unlinkSync (fs : List String) (path : String) : Except JsErr (List String) :=
  if fs.contains path then .ok (fs.erase path)
  else .error (.fsErr "ENOENT: no such file or directory")

/-- The unguarded expression `field[0].path` (as written for both files at
lines 50-51): a `TypeError` when the field is `undefined` or the array is
empty. -/
def firstPath : Option (List FileUpload) → Except JsErr String
  | none => .error (.typeError "Cannot read properties of undefined (reading 0)")
  | some [] => .error (.typeError "Cannot read properties of undefined (reading path)")
  | some (f :: _) => .ok f.path

/-- The partly guarded expression `req.files?.avatar[0]?.path` (line 56):
`avatar` itself is not optional-chained, so an absent avatar field is a
`TypeError`, while an empty array yields `undefined` through `?.path`. -/
def firstPathOpt : Option (List FileUpload) → Except JsErr (Option String)
  | none => .error (.typeError "Cannot read properties of undefined (reading 0)")
  | some [] => .ok none
  | some (f :: _) => .ok (some f.path)

/-- Lines 63-67 of the controller: `coverImageLocalPath` stays undefined
unless `req.files.coverImage` is truthy, in which case
`req.files.coverImage[0].path` is read without a guard — an empty array
is truthy and makes that read a `TypeError`. -/
def coverPathOf : Option (List FileUpload) → Except JsErr (Option String)
  | none => .ok none
  | some [] => .error (.typeError "Cannot read properties of undefined (reading path)")
  | some (f :: _) => .ok (some f.path)

/-- The Cloudinary upload response, reduced to the field the controllers
read. -/
structure UploadResult where
  secure_url : String
deriving DecidableEq

/-- `cloudinaryUpload(localFilePath)` from `utils/cloudinary.js`,
parameterized by the external upload service `uploadSvc` (returns the
response on success, `none` on failure): returns `null` untouched when no
path is given; otherwise uploads and then deletes the staged local file —
in the `try` on success and in the `catch` on failure alike — and
returns the response or `null`. `unlinkSync` on a path that is not staged
throws out of the function. -/
def cloudinaryUpload (uploadSvc : String → Option UploadResult) (localFilePath : Option String)
    (fs : List String) : Except JsErr (Option UploadResult × List String) :=
  match localFilePath with
  | none => .ok (none, fs)
  | some p =>
    match uploadSvc p, unlinkSync fs p with
    | _, .error e => .error e
    | some r, .ok fs1 => .ok (some r, fs1)
    | none, .ok fs1 => .ok (none, fs1)

/-- The symbol class `[@$!%*?&]` of the password pattern. -/
def passwordSymbols : List Char := ['@', '$', '!', '%', '*', '?', '&']

/-- The character class `[a-zA-Z0-9@$!%*?&]` of the password pattern. -/
def passwordAllowedChar (c : Char) : Bool :=
  c.isDigit || c.isLower || c.isUpper || passwordSymbols.contains c

/-- Semantics of `password.match(passwordRegex)` for the pattern
`^(?=.*[0-9])(?=.*[a-z])(?=.*[A-Z])(?=.*[@$!%*?&])([a-zA-Z0-9@$!%*?&]{8,})$`:
the anchored body forces every character into the bracketed class and the
length to be at least 8, and the four lookaheads each require one
character of their class somewhere in the string (the class excludes
newlines, so the `.*` of a lookahead always reaches it). -/
def passwordRegexMatch (s : String) : Bool :=
  decide (8 ≤ s.length) && s.data.all passwordAllowedChar &&
  s.data.any Char.isDigit && s.data.any Char.isLower &&
  s.data.any Char.isUpper && s.data.any (fun c => passwordSymbols.contains c)

/-- The password error message of the register handler. -/
def passwordErrMsg : String :=
  "Password must contain at least 6 characters, including UPPER, LOWERCASE, Special Symbol and numbers"

/-- Model of `User.create({...})` followed by the pre-save hook: assigns
the next id, lowercases email and username, hashes the password. -/
def createUser (salt : Nat) (nextId : Nat) (fullName avatarUrl coverImageUrl email password
    username : String) (s : Store) : Store :=
  { s with users := s.users ++
      [{ _id := nextId, username := jsToLower username, email := jsToLower email,
         fullName := fullName, avatar := avatarUrl, coverImage := coverImageUrl,
         watchHistory := [], password := bcryptHash password salt, refreshToken := none }] }

/-- The `registerUser` handler, faithful to its textual order: presence
check on the four body fields, `@` check on the email, password pattern
check, duplicate lookup by email or username — on a hit it unlinks
`req.files.avatar[0].path` and `req.files.coverImage[0].path`
unconditionally and throws 409 — then avatar path resolution, optional
cover path resolution (`req.files.coverImage[0].path` behind a truthiness
check of the array, which an empty array passes), both uploads, the
`!avatar` check, account creation and the `-password -refreshToken`
projection of the re-fetched document. -/
def registerUser (uploadSvc : String → Option UploadResult) (salt : Nat) (nextId : Nat)
    (req : RegisterReq) (s : Store) (fs : List String) :
    (Except JsErr (List (String × Value))) × Store × List String :=
  match req.fullName, req.email, req.password, req.username with
  | some fullName, some email, some password, some username =>
    if !(email.data.contains '@') then
      (.error (.api 400 "Please provide a valid email"), s, fs)
    else if !(passwordRegexMatch password) then
      (.error (.api 400 passwordErrMsg), s, fs)
    else
      match findOneByEmailOrUsername s (some email) (some username) with
      | some _ =>
        (match firstPath req.files.avatar with
         | .error e => (.error e, s, fs)
         | .ok avatarPath =>
           match unlinkSync fs avatarPath with
           | .error e => (.error e, s, fs)
           | .ok fs1 =>
             match firstPath req.files.coverImage with
             | .error e => (.error e, s, fs1)
             | .ok coverPath =>
               match unlinkSync fs1 coverPath with
               | .error e => (.error e, s, fs1)
               | .ok fs2 =>
                 (.error (.api 409 "User already exists with same email or username"), s, fs2))
      | none =>
        match firstPathOpt req.files.avatar with
        | .error e => (.error e, s, fs)
        | .ok avatarLocalPath =>
          if isFalsyStr avatarLocalPath then
            (.error (.api 400 "Please provide an avatar image"), s, fs)
          else
            match coverPathOf req.files.coverImage with
            | .error e => (.error e, s, fs)
            | .ok coverImageLocalPath =>
              match cloudinaryUpload uploadSvc avatarLocalPath fs with
              | .error e => (.error e, s, fs)
              | .ok (avatar, fs1) =>
                match cloudinaryUpload uploadSvc coverImageLocalPath fs1 with
                | .error e => (.error e, s, fs1)
                | .ok (coverImage, fs2) =>
                  match avatar with
                  | none => (.error (.api 500 "Cloudinary error uploading avatar image"), s, fs2)
                  | some av =>
                    let s1 := createUser salt nextId fullName av.secure_url
                      ((coverImage.map UploadResult.secure_url).getD "") email password username s
                    match (findById s1 nextId).map (selectView ["password", "refreshToken"]) with
                    | none => (.error (.api 500 "Error creating user"), s1, fs2)
                    | some createdUser => (.ok createdUser, s1, fs2)
  | _, _, _, _ => (.error (.api 400 "Please provide all required fields"), s, fs)

/-- A change-password request: body fields, including the `_id` the
handler (mis)uses to resolve the account (`req.body?._id`), instead of
the authenticated `req.user`. -/
structure ChangePasswordReq where
  oldPassword : String
  newPassword : String
  bodyId : Option Nat
deriving DecidableEq

/-- The `changeCurrentPassword` handler: resolves the user from
`req.body?._id` and calls `user.isPasswordCorrect(oldPassword)`. When the
lookup misses, the call is a property read on `null`; when it hits, the
user model defines no method of that name (`userModelMethods`), so the
call is a `TypeError` as well. The success branch (verify with the old
password, then assign and save the new one, re-hashed by the pre-save
hook) is kept for faithfulness. -/
def changeCurrentPassword (salt : Nat) (req : ChangePasswordReq) (s : Store) :
    (Except JsErr Unit) × Store :=
  match req.bodyId.bind (findById s) with
  | none => (.error (.typeError "Cannot read properties of null (reading isPasswordCorrect)"), s)
  | some user =>
    if userModelMethods.contains "isPasswordCorrect" then
      if bcryptCompare req.oldPassword user.password then
        (.ok (), updateUser s user._id
          (fun u => { u with password := bcryptHash req.newPassword salt }))
      else (.error (.api 404 "Old Password is invalid"), s)
    else
      (.error (.typeError "user.isPasswordCorrect is not a function"), s)

/-- Modelled from the spec: the authentication middleware that populates
`req.user` is not among the provided sources (only
`controllers/user.controller.js`, the models, multer and Cloudinary
utilities are); per §4.2 of the spec, `sanitizedView(account)` — the
projection excluding `hashedPassword` and `currentRefreshToken` — is
"the only form ever returned to a client", so the middleware attaches
that projection of the authenticated account. -/
def authMiddlewareUser (s : Store) (uid : Nat) : Option (List (String × Value)) :=
  (findById s uid).map (selectView ["password", "refreshToken"])

/-- The `getCurrentUser` handler: answers 200 with `req.user` as-is. -/
def getCurrentUser (reqUser : Option (List (String × Value))) :
    Except JsErr (Option (List (String × Value))) :=
  .ok reqUser

/-- An update-account-details request: body fields plus the
authenticated account id (`req.user?._id`). -/
structure UpdateDetailsReq where
  fullName : Option String
  email : Option String
  userId : Option Nat
deriving DecidableEq

/-- The `updateAccountDetails` handler: its `try/catch` converts the
inner `ApiError(400, "All fields are required")` — thrown when either
field is falsy — into the catch-all 400 response; otherwise it `$set`s
both fields via `findByIdAndUpdate` (no pre-save hook runs) and answers
with the updated document under `.select("-password")` only — the
stored refresh token is NOT stripped. An unmatched id yields a 200
response with a `null` document. -/
def updateAccountDetails (req : UpdateDetailsReq) (s : Store) :
    (Except JsErr (Option (List (String × Value)))) × Store :=
  if isFalsyStr req.fullName || isFalsyStr req.email then
    (.error (.api 400 "Error while updating user details"), s)
  else
    match req.fullName, req.email with
    | some fullName, some email =>
      (match req.userId.bind (findById s) with
       | none => (.ok none, s)
       | some user =>
         let s1 := updateUser s user._id (fun u => { u with fullName := fullName, email := email })
         (.ok ((findById s1 user._id).map (selectView ["password"])), s1))
    | _, _ => (.error (.api 400 "Error while updating user details"), s)

/-- A single-file update request (`upload.single`): `req.file?.path` and
the authenticated account id. -/
structure UpdateFileReq where
  filePath : Option String
  userId : Option Nat
deriving DecidableEq

/-- The `updateUserAvatar` handler: uploads the staged file, `$set`s the
new avatar URL — but never binds the `findByIdAndUpdate` result, and its
response references the undeclared variable `user`, so reaching the
response line raises a `ReferenceError` that the `catch` turns into the
400 catch-all. Every inner failure (upload failure included, via the
`secure_url` read on `null`) lands in the same catch-all. -/
def updateUserAvatar (uploadSvc : String → Option UploadResult) (req : UpdateFileReq)
    (s : Store) (fs : List String) :
    (Except JsErr (Option (List (String × Value)))) × Store × List String :=
  if isFalsyStr req.filePath then
    (.error (.api 400 "Avatar file is missing"), s, fs)
  else
    match cloudinaryUpload uploadSvc req.filePath fs with
    | .error _ => (.error (.api 400 "Error while updating user details"), s, fs)
    | .ok (avatar, fs1) =>
      match avatar with
      | none => (.error (.api 400 "Error while updating user details"), s, fs1)
      | some av =>
        match req.userId.bind (findById s) with
        | none => (.error (.api 400 "Error while updating user details"), s, fs1)
        | some user =>
          let s1 := updateUser s user._id (fun u => { u with avatar := av.secure_url })
          (.error (.api 400 "Error while updating user details"), s1, fs1)

/-- The `updateUserCoverImage` handler: uploads the staged file, `$set`s
the new cover image URL and answers with the updated document under
`.select("-password")` only — as in `updateAccountDetails`, the stored
refresh token is NOT stripped. Inner failures land in the 400 catch-all. -/
def updateUserCoverImage (uploadSvc : String → Option UploadResult) (req : UpdateFileReq)
    (s : Store) (fs : List String) :
    (Except JsErr (Option (List (String × Value)))) × Store × List String :=
  if isFalsyStr req.filePath then
    (.error (.api 400 "coverImage file is missing"), s, fs)
  else
    match cloudinaryUpload uploadSvc req.filePath fs with
    | .error _ => (.error (.api 400 "Error while updating user details"), s, fs)
    | .ok (coverImage, fs1) =>
      match coverImage with
      | none => (.error (.api 400 "Error while updating user details"), s, fs1)
      | some cov =>
        match req.userId.bind (findById s) with
        | none => (.ok none, s, fs1)
        | some user =>
          let s1 := updateUser s user._id (fun u => { u with coverImage := cov.secure_url })
          (.ok ((findById s1 user._id).map (selectView ["password"])), s1, fs1)

/-- A channel-profile request: the `:username` route parameter and the
viewer's account id from `req.user?._id` (absent for an anonymous
viewer). -/
structure ChannelReq where
  username : Option String
  viewerId : Option Nat
deriving DecidableEq

/-- The aggregation output for one matched account: both `$lookup`s
against `subscriptions`, the `$addFields` counts and `isSubscribed`
(`$in` of the viewer id — `null` when absent, matching no edge — in the
subscriber fields of the first join), then the `$project`. An inclusion
`$project` keeps `_id` unless it is explicitly suppressed, so `_id` is
part of the output alongside the seven named fields. -/
def channelProjection (s : Store) (viewerId : Option Nat) (u : UserDoc) :
    List (String × Value) :=
  let subscribers := s.subscriptions.filter (fun e => e.channel == u._id)
  let subscribedTo := s.subscriptions.filter (fun e => e.subscriber == u._id)
  let isSubscribed := match viewerId with
    | some v => (subscribers.map Edge.subscriber).contains v
    | none => false
  [("_id", .nat u._id), ("username", .str u.username), ("fullName", .str u.fullName),
   ("avatar", .str u.avatar), ("coverImage", .str u.coverImage),
   ("subscribersCount", .nat subscribers.length),
   ("subscribedToCount", .nat subscribedTo.length),
   ("isSubscribed", .bool isSubscribed)]

/-- The `getUserChannelProfile` handler: rejects an absent or blank
username, `$match`es accounts whose stored username equals the
lowercased parameter, runs `channelProjection` on each, answers 404 when
the pipeline yields no row and otherwise returns the first row. The
store is read-only here. -/
def getUserChannelProfile (req : ChannelReq) (s : Store) :
    Except JsErr (List (String × Value)) :=
  match req.username with
  | none => .error (.api 400 "Please provide a valid username")
  | some un =>
    if isBlank un then .error (.api 400 "Please provide a valid username")
    else
      match (s.users.filter (fun u => u.username == jsToLower un)).map
          (channelProjection s req.viewerId) with
      | [] => .error (.api 404 "Channel not found")
      | v :: _ => .ok v

/-- The document a client sees in a successful register response
(empty when the request failed). -/
def regView : Except JsErr (List (String × Value)) → List (String × Value)
  | .ok v => v
  | .error _ => []

/-- The document a client sees in a successful login response. -/
def loginView : Except JsErr LoginResp → List (String × Value)
  | .ok r => r.user.getD []
  | .error _ => []

/-- The document a client sees in a successful optional-document
response (the update handlers and `getCurrentUser`). -/
def optView : Except JsErr (Option (List (String × Value))) → List (String × Value)
  | .ok (some v) => v
  | _ => []

/-- The document a client sees in a successful channel-profile
response. -/
def chanView : Except JsErr (List (String × Value)) → List (String × Value)
  | .ok v => v
  | .error _ => []

/-- A rendered document carries neither the password digest nor the
stored refresh token. -/
def viewExcludesSecrets (v : List (String × Value)) : Prop :=
  hasKey v "password" = false ∧ hasKey v "refreshToken" = false

/-- Whether an optional-document response succeeded. -/
def isOkResp : Except JsErr (Option (List (String × Value))) → Bool
  | .ok _ => true
  | .error _ => false

/-- The password complexity policy exactly as the spec words it:
"minimum 8 characters, at least one digit, one lowercase letter, one
uppercase letter, one symbol from a fixed set". This definition follows
the spec's words (not the source), for comparison with the implemented
`passwordRegexMatch`. -/
def specPasswordPolicy (s : String) : Bool :=
  decide (8 ≤ s.length) && s.data.any Char.isDigit && s.data.any Char.isLower &&
  s.data.any Char.isUpper && s.data.any (fun c => passwordSymbols.contains c)

/-- A concrete environment with distinct secrets for the two token
kinds. -/
def env0 : Env := ⟨"access-secret-A", "refresh-secret-R"⟩

/-- A concrete always-succeeding upload service. -/
def upl0 : String → Option UploadResult := fun p => some ⟨"https://cdn.example/" ++ p⟩

/-- A concrete registered account. -/
def ana : UserDoc :=
  { _id := 1, username := "ana", email := "ana@x.com", fullName := "Ana",
    avatar := "https://cdn.example/a.png", coverImage := "", watchHistory := [],
    password := bcryptHash "Str0ng!Pass" 7, refreshToken := none }

/-- A refresh token issued to `ana` at time 0. -/
def rt0 : Token := jwtSign (.refresh 1 0) env0.refreshTokenSecret

/-- `ana` with `rt0` persisted as her current refresh token. -/
def anaLive : UserDoc := { ana with refreshToken := some rt0 }

/-- A second concrete registered account. -/
def bob : UserDoc :=
  { _id := 2, username := "bob", email := "bob@x.com", fullName := "Bob",
    avatar := "https://cdn.example/b.png", coverImage := "", watchHistory := [],
    password := bcryptHash "An0ther!Pw" 3, refreshToken := none }

/-- A store with just `ana`, logged out. -/
def store0 : Store := ⟨[ana], []⟩

/-- A store with just `ana`, holding a live refresh token. -/
def store1 : Store := ⟨[anaLive], []⟩

/-- A store with `ana` and `bob`, where `bob` subscribes to `ana`. -/
def store2 : Store := ⟨[ana, bob], [⟨2, 1⟩]⟩

/-! Helper lemmas shared by the claim theorems. -/

theorem hasKey_selectView_both (u : UserDoc) :
    hasKey (selectView ["password", "refreshToken"] u) "password" = false ∧
    hasKey (selectView ["password", "refreshToken"] u) "refreshToken" = false := by
  rcases u with ⟨i, un, em, fn, av, ci, wh, pw, rt⟩
  cases rt <;> exact ⟨rfl, rfl⟩

theorem hasKey_selectView_password (u : UserDoc) :
    hasKey (selectView ["password"] u) "password" = false ∧
    hasKey (selectView ["password"] u) "refreshToken" = u.refreshToken.isSome := by
  rcases u with ⟨i, un, em, fn, av, ci, wh, pw, rt⟩
  cases rt <;> exact ⟨rfl, rfl⟩

theorem unlinkSync_error_shape (fs : List String) (p : String) (e : JsErr)
    (h : unlinkSync fs p = .error e) : ∃ m, e = .fsErr m := by
  unfold unlinkSync at h
  split at h
  · injection h
  · injection h with h
    exact ⟨_, h.symm⟩

theorem firstPath_error_shape (x : Option (List FileUpload)) (e : JsErr)
    (h : firstPath x = .error e) : ∃ m, e = .typeError m := by
  match x with
  | none => injection h with h; exact ⟨_, h.symm⟩
  | some [] => injection h with h; exact ⟨_, h.symm⟩
  | some (f :: _) => injection h

theorem firstPathOpt_error_shape (x : Option (List FileUpload)) (e : JsErr)
    (h : firstPathOpt x = .error e) : ∃ m, e = .typeError m := by
  match x with
  | none => injection h with h; exact ⟨_, h.symm⟩
  | some [] => injection h
  | some (f :: _) => injection h

theorem coverPathOf_error_shape (x : Option (List FileUpload)) (e : JsErr)
    (h : coverPathOf x = .error e) : ∃ m, e = .typeError m := by
  match x with
  | none => injection h
  | some [] => injection h with h; exact ⟨_, h.symm⟩
  | some (f :: _) => injection h

theorem cloudinaryUpload_error_shape (uploadSvc : String → Option UploadResult)
    (x : Option String) (fs : List String) (e : JsErr)
    (h : cloudinaryUpload uploadSvc x fs = .error e) : ∃ m, e = .fsErr m := by
  cases x with
  | none => simp [cloudinaryUpload] at h
  | some p =>
    cases hl : unlinkSync fs p with
    | error e1 =>
      rcases unlinkSync_error_shape fs p e1 hl with ⟨m, rfl⟩
      cases hu : uploadSvc p <;> simp [cloudinaryUpload, hu, hl] at h <;> exact ⟨m, h.symm⟩
    | ok fs1 =>
      cases hu : uploadSvc p <;> simp [cloudinaryUpload, hu, hl] at h

/-! Theorems settling the claims. -/

/-- C1: the claim says a refresh request without a presented token fails
before any verification, and a presented token passes the missing-token
check. The code has the check inverted (`if (incomingRefreshToken)`
instead of `if (!incomingRefreshToken)`): presenting `ana`'s live
refresh token fails with the 400 "Refresh token is required" error, while
presenting nothing passes the check and reaches `jwt.verify`, which
throws on the undefined token (surfaced as the 500 wrap). -/
theorem c1_missing_token_check_inverted :
    refreshAccessToken env0 5 ⟨some rt0, none⟩ store1 =
      (.error (.api 400 "Refresh token is required"), store1) ∧
    refreshAccessToken env0 5 ⟨none, none⟩ store1 =
      (.error (.api 500 "jwt must be provided"), store1) := ⟨rfl, rfl⟩

/-- C2: the claim says login followed by refresh with the just-issued
refresh token succeeds and rotates the pair. In the code, any presented
refresh token is rejected by the inverted missing-token check, so the
refresh immediately after a successful login fails with 400 "Refresh
token is required" and no rotation ever happens. -/
theorem c2_refresh_after_login_rejected :
    ((loginUser env0 1 ⟨some "ana@x.com", none, "Str0ng!Pass"⟩ store0).1.map (fun r =>
        (refreshAccessToken env0 2 ⟨some r.refreshToken, none⟩
          (loginUser env0 1 ⟨some "ana@x.com", none, "Str0ng!Pass"⟩ store0).2).1)) =
      .ok (.error (.api 400 "Refresh token is required")) := rfl

/-- C3: the claim says refresh accepts only tokens verifying under the
refresh-token secret. The verification step of `refreshAccessToken`
(line 243) uses `process.env.ACCESS_TOKEN_SECRET`: a genuine refresh
token — signed with the refresh secret by `generateRefreshToken` — fails
that verification with `invalid signature` (also inside the full `try`
body), while an access token passes it. -/
theorem c3_refresh_verifies_under_access_secret :
    jwtVerifyJS (some (generateRefreshToken env0 1 ana)) env0.accessTokenSecret =
      .error (.jwt "invalid signature") ∧
    jwtVerifyJS (some (generateAccessToken env0 1 ana)) env0.accessTokenSecret =
      .ok (.access 1 "ana" "ana@x.com" "Ana" 1) ∧
    (refreshTryBody env0 2 (some (generateRefreshToken env0 1 ana)) store1).1 =
      .error (.jwt "invalid signature") := ⟨rfl, rfl, rfl⟩

/-- C4: the claim says a duplicate registration fails with the conflict
error and releases the staged files. When the optional cover image is
absent, the duplicate branch dereferences
`req.files.coverImage[0].path` unconditionally and crashes with a
`TypeError` (after having deleted the avatar) instead of throwing 409;
with both files staged it does fail 409 and releases both. -/
theorem c4_duplicate_cleanup_crashes_without_cover :
    registerUser upl0 7 2
        ⟨some "bea", some "ana@x.com", some "Bea", some "Str0ng!Pass",
         ⟨some [⟨"/tmp/av.png"⟩], none⟩⟩ store0 ["/tmp/av.png"] =
      (.error (.typeError "Cannot read properties of undefined (reading 0)"), store0, []) ∧
    registerUser upl0 7 2
        ⟨some "bea", some "ana@x.com", some "Bea", some "Str0ng!Pass",
         ⟨some [⟨"/tmp/av.png"⟩], some [⟨"/tmp/cv.png"⟩]⟩⟩ store0
        ["/tmp/av.png", "/tmp/cv.png"] =
      (.error (.api 409 "User already exists with same email or username"), store0, []) :=
  ⟨rfl, rfl⟩

/-- C5 counterexample: a registration rejected by the password-policy
check leaves the staged avatar file in place, refuting "on every exit
path every staged local asset file is deleted". -/
theorem c5_counterexample_validation_exit_keeps_file :
    registerUser upl0 7 2
        ⟨some "bea", some "bea@x.com", some "Bea", some "weakpass",
         ⟨some [⟨"/tmp/av.png"⟩], none⟩⟩ store0 ["/tmp/av.png"] =
      (.error (.api 400 passwordErrMsg), store0, ["/tmp/av.png"]) ∧
    ["/tmp/av.png"].contains "/tmp/av.png" = true := ⟨rfl, rfl⟩

/-- C6 counterexample: the password `aA1!aaa#` satisfies the spec's
policy (8 characters, a digit, a lowercase, an uppercase, and `!` from
the fixed set) yet the implemented pattern rejects it, because `#` is
outside the pattern's restricted alphabet; the register handler rejects
the request at the password step. -/
theorem c6_counterexample_policy_password_rejected :
    specPasswordPolicy "aA1!aaa#" = true ∧
    passwordRegexMatch "aA1!aaa#" = false ∧
    (registerUser upl0 7 2
        ⟨some "bea", some "bea@x.com", some "Bea", some "aA1!aaa#",
         ⟨some [⟨"/tmp/av.png"⟩], none⟩⟩ store0 ["/tmp/av.png"]).1 =
      .error (.api 400 passwordErrMsg) := ⟨rfl, rfl, rfl⟩

/-- C7 counterexample: `updateAccountDetails` projects the updated
document with `.select("-password")` only, so when the account holds a
live refresh token the response includes the `refreshToken` field,
refuting "every account representation returned to a client excludes
`currentRefreshToken`". -/
theorem c7_counterexample_update_leaks_refresh_token :
    hasKey (optView (updateAccountDetails ⟨some "Ana B", some "ana@x.com", some 1⟩ store1).1)
      "refreshToken" = true ∧
    hasKey (optView (updateAccountDetails ⟨some "Ana B", some "ana@x.com", some 1⟩ store1).1)
      "password" = false := ⟨rfl, rfl⟩

/-- C9 counterexample: the channel-profile output of an inclusion
`$project` also carries the document `_id`, which is none of the seven
fields the claim says are the only ones present. -/
theorem c9_counterexample_output_has_id :
    hasKey (chanView (getUserChannelProfile ⟨some "ana", some 2⟩ store2)) "_id" = true ∧
    ["fullName", "username", "avatar", "coverImage", "subscribersCount",
     "subscribedToCount", "isSubscribed"].contains "_id" = false := ⟨rfl, rfl⟩

/-- C8: a login naming an existing account but presenting a password
that does not verify against the stored digest fails with the 401
invalid-credentials error; no token is issued, no cookie is set (the
response carries neither), and the store — in particular the stored
refresh token — is unchanged. -/
theorem c8_login_wrong_password (env : Env) (now : Nat) (req : LoginReq) (s : Store)
    (u : UserDoc) (hguard : (isFalsyStr req.email && isFalsyStr req.username) = false)
    (hfind : findOneByEmailOrUsername s req.email req.username = some u)
    (hpw : u.checkPassword req.password = false) :
    loginUser env now req s = (.error (.api 401 "Invalid user credentials"), s) := by
  simp [loginUser, hguard, hfind, hpw]

/-- Witness for C8 at a concrete input: `ana` exists and `wrongpass`
does not verify against her digest. -/
theorem c8_witness :
    (isFalsyStr (some "ana@x.com") && isFalsyStr (none : Option String)) = false ∧
    findOneByEmailOrUsername store0 (some "ana@x.com") none = some ana ∧
    ana.checkPassword "wrongpass" = false ∧
    loginUser env0 3 ⟨some "ana@x.com", none, "wrongpass"⟩ store0 =
      (.error (.api 401 "Invalid user credentials"), store0) :=
  ⟨rfl, rfl, rfl,
   c8_login_wrong_password env0 3 ⟨some "ana@x.com", none, "wrongpass"⟩ store0 ana rfl rfl rfl⟩

/-- C10: every change-password request fails with a `TypeError` — the
account resolved from `req.body?._id` either does not exist (property
read on `null`) or does not define `isPasswordCorrect` (the model
defines `checkPassword`) — and the store, in particular the stored
password digest, is unchanged; the success branch is unreachable. -/
theorem c10_change_password_never_succeeds (salt : Nat) (req : ChangePasswordReq) (s : Store) :
    (∃ m, (changeCurrentPassword salt req s).1 = .error (.typeError m)) ∧
    (changeCurrentPassword salt req s).2 = s := by
  unfold changeCurrentPassword
  cases h : req.bodyId.bind (findById s) with
  | none => exact ⟨⟨_, rfl⟩, rfl⟩
  | some u => exact ⟨⟨_, rfl⟩, rfl⟩

/-- C5 as amended: the media-upload collaborator deletes the staged
local file on both upload success and upload failure, and the
duplicate-rejection exit (when both asset files are staged) deletes both
staged files; but the validation-rejection exits do not delete staged
files — a password-policy rejection and a missing-field rejection both
return the staged set unchanged. -/
theorem c5_amended_cleanup_paths :
    (∀ (uploadSvc : String → Option UploadResult) (p : String) (fs : List String),
        fs.contains p = true →
        cloudinaryUpload uploadSvc (some p) fs = .ok (uploadSvc p, fs.erase p) ∧
        (fs.Nodup → p ∉ fs.erase p)) ∧
    (∀ (uploadSvc : String → Option UploadResult) (salt nextId : Nat)
        (un em fn pw ap cp : String) (s : Store) (u : UserDoc) (fs : List String),
        em.data.contains '@' = true → passwordRegexMatch pw = true →
        findOneByEmailOrUsername s (some em) (some un) = some u →
        fs.contains ap = true → (fs.erase ap).contains cp = true →
        registerUser uploadSvc salt nextId
            ⟨some un, some em, some fn, some pw, ⟨some [⟨ap⟩], some [⟨cp⟩]⟩⟩ s fs =
          (.error (.api 409 "User already exists with same email or username"), s,
           (fs.erase ap).erase cp)) ∧
    (∀ (uploadSvc : String → Option UploadResult) (salt nextId : Nat)
        (un em fn pw : String) (files : FilesObj) (s : Store) (fs : List String),
        em.data.contains '@' = true → passwordRegexMatch pw = false →
        registerUser uploadSvc salt nextId ⟨some un, some em, some fn, some pw, files⟩ s fs =
          (.error (.api 400 passwordErrMsg), s, fs)) ∧
    (∀ (uploadSvc : String → Option UploadResult) (salt nextId : Nat)
        (req : RegisterReq) (s : Store) (fs : List String),
        req.password = none →
        registerUser uploadSvc salt nextId req s fs =
          (.error (.api 400 "Please provide all required fields"), s, fs)) := by
  refine ⟨fun uploadSvc p fs hp => ⟨?_, fun hnd => hnd.not_mem_erase⟩, ?_, ?_, ?_⟩
  · have hp1 : p ∈ fs := by simpa using hp
    cases hu : uploadSvc p <;> simp [cloudinaryUpload, unlinkSync, hp1, hu]
  · intro uploadSvc salt nextId un em fn pw ap cp s u fs hem hpw hfind hap hcp
    have hem1 : '@' ∈ em.data := by simpa using hem
    have hap1 : ap ∈ fs := by simpa using hap
    have hcp1 : cp ∈ fs.erase ap := by simpa using hcp
    simp [registerUser, firstPath, unlinkSync, hem1, hpw, hfind, hap1, hcp1]
  · intro uploadSvc salt nextId un em fn pw files s fs hem hpw
    have hem1 : '@' ∈ em.data := by simpa using hem
    simp [registerUser, hem1, hpw]
  · intro uploadSvc salt nextId req s fs hp
    rcases req with ⟨un?, em?, fn?, pw?, files⟩
    cases hp
    cases un? <;> cases em? <;> cases fn? <;> rfl

/-- Witness for C5 at concrete inputs: a successful upload deletes the
staged file; a duplicate registration with both files staged deletes
both and fails 409; a password-policy rejection and a missing-password
rejection keep the staged file. -/
theorem c5_witness :
    cloudinaryUpload upl0 (some "/tmp/a.png") ["/tmp/a.png"] = .ok (upl0 "/tmp/a.png", []) ∧
    registerUser upl0 7 2
        ⟨some "bea", some "ana@x.com", some "Bea", some "Str0ng!Pass",
         ⟨some [⟨"/a"⟩], some [⟨"/b"⟩]⟩⟩ store0 ["/a", "/b"] =
      (.error (.api 409 "User already exists with same email or username"), store0, []) ∧
    registerUser upl0 7 2
        ⟨some "bea", some "bea@x.com", some "Bea", some "weakpass",
         ⟨some [⟨"/a"⟩], none⟩⟩ store0 ["/a"] =
      (.error (.api 400 passwordErrMsg), store0, ["/a"]) ∧
    registerUser upl0 7 2
        ⟨some "bea", some "bea@x.com", some "Bea", none, ⟨some [⟨"/a"⟩], none⟩⟩
        store0 ["/a"] =
      (.error (.api 400 "Please provide all required fields"), store0, ["/a"]) :=
  ⟨(c5_amended_cleanup_paths.1 upl0 "/tmp/a.png" ["/tmp/a.png"] rfl).1,
   c5_amended_cleanup_paths.2.1 upl0 7 2 "bea" "ana@x.com" "Bea" "Str0ng!Pass" "/a" "/b"
     store0 ana ["/a", "/b"] rfl rfl rfl rfl rfl,
   c5_amended_cleanup_paths.2.2.1 upl0 7 2 "bea" "bea@x.com" "Bea" "weakpass"
     ⟨some [⟨"/a"⟩], none⟩ store0 ["/a"] rfl rfl,
   c5_amended_cleanup_paths.2.2.2 upl0 7 2
     ⟨some "bea", some "bea@x.com", some "Bea", none, ⟨some [⟨"/a"⟩], none⟩⟩
     store0 ["/a"] rfl⟩

theorem passwordRegexMatch_eq_policy (pw : String) :
    passwordRegexMatch pw = (specPasswordPolicy pw && pw.data.all passwordAllowedChar) := by
  unfold passwordRegexMatch specPasswordPolicy
  cases h1 : decide (8 ≤ pw.length) <;>
    cases h2 : pw.data.all passwordAllowedChar <;>
      cases h3 : pw.data.any Char.isDigit <;>
        cases h4 : pw.data.any Char.isLower <;>
          cases h5 : pw.data.any Char.isUpper <;>
            cases h6 : pw.data.any (fun c => passwordSymbols.contains c) <;>
              simp [h1, h2, h3, h4, h5, h6]

theorem registerUser_accepts_valid_password (uploadSvc : String → Option UploadResult)
    (salt nextId : Nat) (un em fn pw : String) (files : FilesObj) (s : Store)
    (fs : List String) (hpw : passwordRegexMatch pw = true) :
    (registerUser uploadSvc salt nextId ⟨some un, some em, some fn, some pw, files⟩ s fs).1 ≠
      .error (.api 400 passwordErrMsg) := by
  simp only [registerUser, hpw, Bool.not_true, Bool.false_eq_true, if_false]
  repeat' split
  all_goals intro hfalse
  all_goals
    first
    | exact Except.noConfusion hfalse
    | (injection hfalse with h1
       first
       | exact absurd h1 (by decide)
       | (subst h1
          first
          | (rcases firstPath_error_shape _ _ (by assumption) with ⟨m, hm⟩
             exact JsErr.noConfusion hm)
          | (rcases firstPathOpt_error_shape _ _ (by assumption) with ⟨m, hm⟩
             exact JsErr.noConfusion hm)
          | (rcases coverPathOf_error_shape _ _ (by assumption) with ⟨m, hm⟩
             exact JsErr.noConfusion hm)
          | (rcases unlinkSync_error_shape _ _ _ (by assumption) with ⟨m, hm⟩
             exact JsErr.noConfusion hm)
          | (rcases cloudinaryUpload_error_shape _ _ _ _ (by assumption) with ⟨m, hm⟩
             exact JsErr.noConfusion hm)))

/-- C6 as amended: the implemented password validation accepts exactly
the passwords that satisfy the spec's policy AND consist solely of
characters from the pattern's alphabet `[a-zA-Z0-9@$!%*?&]`; under a
well-formed email, the register handler rejects with the password
`ValidationError` precisely the passwords failing that amended policy
(so a policy-satisfying password containing a character outside the
alphabet is rejected, contrary to the original claim). -/
theorem c6_amended_password_policy :
    (∀ pw : String,
        passwordRegexMatch pw = (specPasswordPolicy pw && pw.data.all passwordAllowedChar)) ∧
    (∀ (uploadSvc : String → Option UploadResult) (salt nextId : Nat)
        (un em fn pw : String) (files : FilesObj) (s : Store) (fs : List String),
        em.data.contains '@' = true →
        ((registerUser uploadSvc salt nextId
              ⟨some un, some em, some fn, some pw, files⟩ s fs).1 =
            .error (.api 400 passwordErrMsg) ↔ passwordRegexMatch pw = false)) := by
  refine ⟨passwordRegexMatch_eq_policy, ?_⟩
  intro uploadSvc salt nextId un em fn pw files s fs hem
  constructor
  · intro h
    cases hpw : passwordRegexMatch pw with
    | false => rfl
    | true =>
      exact absurd h
        (registerUser_accepts_valid_password uploadSvc salt nextId un em fn pw files s fs hpw)
  · intro hpw
    have hem1 : '@' ∈ em.data := by simpa using hem
    simp [registerUser, hem1, hpw]

/-- Witness for C6 at concrete inputs: the characterization evaluated at
`aA1!aaa#`, and the rejection equivalence at a concrete registration
carrying that password. -/
theorem c6_witness :
    passwordRegexMatch "aA1!aaa#" =
      (specPasswordPolicy "aA1!aaa#" && "aA1!aaa#".data.all passwordAllowedChar) ∧
    "bea@x.com".data.contains '@' = true ∧
    ((registerUser upl0 7 2
          ⟨some "bea", some "bea@x.com", some "Bea", some "aA1!aaa#",
           ⟨some [⟨"/a"⟩], none⟩⟩ store0 ["/a"]).1 =
        .error (.api 400 passwordErrMsg) ↔ passwordRegexMatch "aA1!aaa#" = false) :=
  ⟨c6_amended_password_policy.1 "aA1!aaa#", rfl,
   c6_amended_password_policy.2 upl0 7 2 "bea" "bea@x.com" "Bea" "aA1!aaa#"
     ⟨some [⟨"/a"⟩], none⟩ store0 ["/a"] rfl⟩

/-- C9 as amended: for an existing channel username (after lowercase
normalization), the profile's `subscribersCount` is the number of edges
whose `channel` is the account, `subscribedToCount` the number whose
`subscriber` is the account, and `isSubscribed` is true iff the viewer's
id appears among the `subscriber` fields of the first edge set; the
output consists of those seven fields plus the document `_id`, which the
inclusion projection keeps. -/
theorem c9_channel_profile_counts (s : Store) (un : String) (viewer : Nat)
    (u : UserDoc) (rest : List UserDoc) (hblank : isBlank un = false)
    (hmatch : s.users.filter (fun x => x.username == jsToLower un) = u :: rest) :
    getUserChannelProfile ⟨some un, some viewer⟩ s =
      .ok [("_id", .nat u._id), ("username", .str u.username),
           ("fullName", .str u.fullName), ("avatar", .str u.avatar),
           ("coverImage", .str u.coverImage),
           ("subscribersCount",
            .nat (s.subscriptions.filter (fun e => e.channel == u._id)).length),
           ("subscribedToCount",
            .nat (s.subscriptions.filter (fun e => e.subscriber == u._id)).length),
           ("isSubscribed",
            .bool (((s.subscriptions.filter (fun e => e.channel == u._id)).map
              Edge.subscriber).contains viewer))] := by
  simp only [getUserChannelProfile, hblank, Bool.false_eq_true, if_false, hmatch,
    List.map_cons, channelProjection]

/-- Witness for C9 at a concrete store: `bob` subscribes to `ana`, the
viewer is `bob`, so the counts are 1 and 0 and `isSubscribed` is true. -/
theorem c9_witness :
    isBlank "ana" = false ∧
    store2.users.filter (fun x => x.username == jsToLower "ana") = [ana] ∧
    getUserChannelProfile ⟨some "ana", some 2⟩ store2 =
      .ok [("_id", .nat 1), ("username", .str "ana"), ("fullName", .str "Ana"),
           ("avatar", .str "https://cdn.example/a.png"), ("coverImage", .str ""),
           ("subscribersCount", .nat 1), ("subscribedToCount", .nat 0),
           ("isSubscribed", .bool true)] := by
  refine ⟨rfl, rfl, ?_⟩
  exact c9_channel_profile_counts store2 "ana" 2 ana [] rfl rfl

theorem viewExcludes_map_getD (o : Option UserDoc) :
    viewExcludesSecrets ((o.map (selectView ["password", "refreshToken"])).getD []) := by
  cases o with
  | none => exact ⟨rfl, rfl⟩
  | some u => exact hasKey_selectView_both u

theorem viewExcludes_optView_ok_map (o : Option UserDoc) :
    viewExcludesSecrets (optView (.ok (o.map (selectView ["password", "refreshToken"])))) := by
  cases o with
  | none => exact ⟨rfl, rfl⟩
  | some u => exact hasKey_selectView_both u

theorem hasKey_optView_map_password (o : Option UserDoc) :
    hasKey (optView (.ok (o.map (selectView ["password"])))) "password" = false := by
  cases o with
  | none => rfl
  | some u => exact (hasKey_selectView_password u).1

theorem registerUser_view_excludes (uploadSvc : String → Option UploadResult)
    (salt nextId : Nat) (req : RegisterReq) (s : Store) (fs : List String) :
    viewExcludesSecrets (regView (registerUser uploadSvc salt nextId req s fs).1) := by
  have hnil : viewExcludesSecrets ([] : List (String × Value)) := ⟨rfl, rfl⟩
  rcases req with ⟨un?, em?, fn?, pw?, files⟩
  simp only [registerUser]
  repeat' split
  all_goals
    first
    | exact hnil
    | (rename_i createdUser heq
       rcases Option.map_eq_some'.mp heq with ⟨u, hu, hv⟩
       rw [← hv]
       exact hasKey_selectView_both u)

theorem loginUser_view_excludes (env : Env) (now : Nat) (req : LoginReq) (s : Store) :
    viewExcludesSecrets (loginView (loginUser env now req s).1) := by
  have hnil : viewExcludesSecrets ([] : List (String × Value)) := ⟨rfl, rfl⟩
  simp only [loginUser]
  repeat' split
  all_goals
    first
    | exact hnil
    | exact viewExcludes_map_getD _

theorem updateAccountDetails_no_password (req : UpdateDetailsReq) (s : Store) :
    hasKey (optView (updateAccountDetails req s).1) "password" = false := by
  simp only [updateAccountDetails]
  repeat' split
  all_goals
    first
    | rfl
    | exact hasKey_optView_map_password _

theorem updateUserCoverImage_no_password (uploadSvc : String → Option UploadResult)
    (req : UpdateFileReq) (s : Store) (fs : List String) :
    hasKey (optView (updateUserCoverImage uploadSvc req s fs).1) "password" = false := by
  simp only [updateUserCoverImage]
  repeat' split
  all_goals
    first
    | rfl
    | exact hasKey_optView_map_password _

theorem updateUserAvatar_never_ok (uploadSvc : String → Option UploadResult)
    (req : UpdateFileReq) (s : Store) (fs : List String) :
    isOkResp (updateUserAvatar uploadSvc req s fs).1 = false := by
  simp only [updateUserAvatar]
  repeat' split
  all_goals rfl

theorem chanProfile_view_excludes (req : ChannelReq) (s : Store) :
    viewExcludesSecrets (chanView (getUserChannelProfile req s)) := by
  have hnil : viewExcludesSecrets ([] : List (String × Value)) := ⟨rfl, rfl⟩
  rcases req with ⟨un?, vid⟩
  cases un? with
  | none => exact hnil
  | some un =>
    simp only [getUserChannelProfile]
    split
    · exact hnil
    · cases hf : s.users.filter (fun u => u.username == jsToLower un) with
      | nil => exact hnil
      | cons u us => exact ⟨rfl, rfl⟩

/-- C7 as amended: the register, login, current-user (with the
spec-modelled middleware projection) and channel-profile responses carry
neither the `password` digest nor the stored `refreshToken`; the
update-account-details and update-cover-image responses exclude only
`password` — their `.select("-password")` projection includes the
`refreshToken` field exactly when the account stores one — and the
update-avatar handler never returns a document at all. -/
theorem c7_amended_sanitization :
    (∀ (uploadSvc : String → Option UploadResult) (salt nextId : Nat)
        (req : RegisterReq) (s : Store) (fs : List String),
        viewExcludesSecrets (regView (registerUser uploadSvc salt nextId req s fs).1)) ∧
    (∀ (env : Env) (now : Nat) (req : LoginReq) (s : Store),
        viewExcludesSecrets (loginView (loginUser env now req s).1)) ∧
    (∀ (s : Store) (uid : Nat),
        viewExcludesSecrets (optView (getCurrentUser (authMiddlewareUser s uid)))) ∧
    (∀ (req : UpdateDetailsReq) (s : Store),
        hasKey (optView (updateAccountDetails req s).1) "password" = false) ∧
    (∀ u : UserDoc, hasKey (selectView ["password"] u) "refreshToken" = u.refreshToken.isSome) ∧
    (∀ (uploadSvc : String → Option UploadResult) (req : UpdateFileReq) (s : Store)
        (fs : List String),
        hasKey (optView (updateUserCoverImage uploadSvc req s fs).1) "password" = false) ∧
    (∀ (uploadSvc : String → Option UploadResult) (req : UpdateFileReq) (s : Store)
        (fs : List String),
        isOkResp (updateUserAvatar uploadSvc req s fs).1 = false) ∧
    (∀ (req : ChannelReq) (s : Store),
        viewExcludesSecrets (chanView (getUserChannelProfile req s))) :=
  ⟨registerUser_view_excludes, loginUser_view_excludes,
   fun s uid => viewExcludes_optView_ok_map (findById s uid),
   updateAccountDetails_no_password,
   fun u => (hasKey_selectView_password u).2,
   updateUserCoverImage_no_password, updateUserAvatar_never_ok,
   chanProfile_view_excludes⟩

/-- Sanity check of the embedding: a correct login succeeds and persists
the newly issued refresh token on the account. -/
example :
    (loginUser env0 1 ⟨some "ana@x.com", none, "Str0ng!Pass"⟩ store0).2 =
      ⟨[{ ana with refreshToken := some (jwtSign (.refresh 1 1) "refresh-secret-R") }], []⟩ :=
  rfl

/-- Sanity check of the embedding: a fresh registration succeeds, stages
through the uploader, lowercases the username, and answers with the
projection that omits `password` and `refreshToken`. -/
example :
    (registerUser upl0 7 2
        ⟨some "Bea", some "bea@x.com", some "Bea", some "Str0ng!Pass",
         ⟨some [⟨"/a"⟩], none⟩⟩ store0 ["/a"]).1 =
      .ok [("_id", .nat 2), ("username", .str "bea"), ("email", .str "bea@x.com"),
           ("fullName", .str "Bea"), ("avatar", .str "https://cdn.example//a"),
           ("coverImage", .str ""), ("watchHistory", .natList [])] := rfl

end VidSync
